import Mathlib

/-!
# GMT 2D geometry kernel — verification development

Shallow embedding of the 2D computational-geometry kernel of the GMT
library (`gmt.js` and its near-duplicate newer copy): vertices, segments,
poly-lines, polygons, circles, the Distance / Collision / Intersection
calculators and the polar conversion helpers, together with theorems
settling the specification's claims about them.

Numbers: the JS code computes with IEEE doubles; the algorithmic content
is embedded over exact fields instead.  The purely rational part of the
kernel (segment intersection, the truthiness-guarded constructors) is
embedded over `ℚ`, keeping everything computable and decidable; the parts
whose formulas intrinsically involve `sqrt`, `π` and `arctan` (distances,
circle metrics, polar conversion) are embedded over `ℝ`.
-/

namespace GMT

/-- JS `Gmt.Vertex`: a 2D point, fields `x` and `y`. -/
structure Vertex (α : Type) where
  x : α
  y : α
  deriving DecidableEq

instance {α : Type} [Inhabited α] : Inhabited (Vertex α) := ⟨⟨default, default⟩⟩

/-- JS `Gmt.Segment`: two connected vertices `start` and `end`
(the JS field `end` is a Lean keyword, hence the quoted name). -/
structure Segment (α : Type) where
  start : Vertex α
  «end» : Vertex α
  deriving DecidableEq

namespace Gmt

/-- JS `Gmt.between(num, min, max)`: `num >= min && num <= max`. -/
def between (num mn mx : ℚ) : Bool :=
  decide (num ≥ mn) && decide (num ≤ mx)

/-- JS `Gmt.PI` (`Math.PI`). -/
noncomputable def PI : ℝ := Real.pi

/-- JS `Gmt.PolyLine`: an ordered sequence of vertices. -/
structure PolyLine (α : Type) where
  vertices : List (Vertex α)
  deriving DecidableEq

/-- JS `new Gmt.PolyLine(x, y)`: the initial vertex is pushed only when
`x && y` is truthy; a JS number is truthy exactly when it is nonzero
(ignoring `NaN`, which exact fields do not have). -/
def PolyLine.make {α : Type} [Zero α] [DecidableEq α] (x y : α) : PolyLine α :=
  ⟨if x ≠ 0 ∧ y ≠ 0 then [⟨x, y⟩] else []⟩

/-- JS `PolyLine.add(x, y)`: pushes a vertex at the back. -/
def PolyLine.add {α : Type} (p : PolyLine α) (x y : α) : PolyLine α :=
  ⟨p.vertices ++ [⟨x, y⟩]⟩

/-- JS `PolyLine.toSegments()`: the segment `vertices[i] → vertices[i+1]`
for each `i` from `0` to `length - 2`. -/
def PolyLine.toSegments {α : Type} (p : PolyLine α) : List (Segment α) :=
  (p.vertices.zip p.vertices.tail).map fun vv => ⟨vv.1, vv.2⟩

/-- JS `PolyLine.toVertices()`. -/
def PolyLine.toVertices {α : Type} (p : PolyLine α) : List (Vertex α) :=
  p.vertices

/-- JS `Gmt.Polygon`: a `PolyLine` body. -/
structure Polygon (α : Type) where
  body : PolyLine α
  deriving DecidableEq

/-- JS `new Gmt.Polygon(x, y)`: delegates to the `PolyLine` constructor. -/
def Polygon.make {α : Type} [Zero α] [DecidableEq α] (x y : α) : Polygon α :=
  ⟨PolyLine.make x y⟩

/-- JS `Polygon.add(x, y)`. -/
def Polygon.add {α : Type} (p : Polygon α) (x y : α) : Polygon α :=
  ⟨p.body.add x y⟩

/-- JS `Polygon.toVertices()`. -/
def Polygon.toVertices {α : Type} (p : Polygon α) : List (Vertex α) :=
  p.body.toVertices

/-- JS `Polygon.toSegments()`: the body's open-chain segments plus
`new Gmt.Segment(vs.x, vs.y, ve.x, ve.y)` where `vs = toVertices()[0]`
and `ve = toVertices()[length - 1]`.  On an empty vertex list the JS
code would build a segment out of `undefined` coordinates; the embedding
uses the `Inhabited` default there, and every theorem about `toSegments`
assumes at least one vertex. -/
def Polygon.toSegments {α : Type} [Inhabited α] (p : Polygon α) : List (Segment α) :=
  p.body.toSegments ++ [⟨p.toVertices.headI, p.toVertices.getLastI⟩]

/-- JS `Gmt.Circle`: center coordinates and a radius. -/
structure Circle where
  x : ℝ
  y : ℝ
  radius : ℝ

/-- JS `Circle.getCenter()`. -/
def Circle.getCenter (c : Circle) : Vertex ℝ :=
  ⟨c.x, c.y⟩

/-- JS `Circle.getArea()` (named `area()` in the older copy): the code
literally computes `Gmt.PI * Gmt.PI * this.radius`. -/
noncomputable def Circle.getArea (c : Circle) : ℝ :=
  PI * PI * c.radius

/-- JS `Circle.getCircumference()` (`circumference()` in the older copy):
`2 * Gmt.PI * this.radius`. -/
noncomputable def Circle.getCircumference (c : Circle) : ℝ :=
  2 * PI * c.radius

namespace Distance

/-- JS `Gmt.Distance.plain(x1, y1, x2, y2)`:
`sqrt(dx * dx + dy * dy)` with `dx = x1 - x2`, `dy = y1 - y2`. -/
noncomputable def plain (x1 y1 x2 y2 : ℝ) : ℝ :=
  Real.sqrt ((x1 - x2) * (x1 - x2) + (y1 - y2) * (y1 - y2))

/-- JS `Gmt.Distance.vertices(v1, v2)`. -/
noncomputable def vertices (v1 v2 : Vertex ℝ) : ℝ :=
  plain v1.x v1.y v2.x v2.y

/-- JS `Gmt.Distance.vertexVsCircle(v, c)`: distance from the center
minus the radius (negative means the vertex is inside the circle). -/
noncomputable def vertexVsCircle (v : Vertex ℝ) (c : Circle) : ℝ :=
  plain v.x v.y c.x c.y - c.radius

/-- JS `Gmt.Distance.circles(c1, c2)`: center distance minus both radii. -/
noncomputable def circles (c1 c2 : Circle) : ℝ :=
  plain c1.x c1.y c2.x c2.y - c1.radius - c2.radius

end Distance

/-- JS `Segment.length()`: `Gmt.Distance.vertices(this.start, this.end)`. -/
noncomputable def Segment.length (s : Segment ℝ) : ℝ :=
  Distance.vertices s.start s.«end»

/-- JS `PolyLine.length()`: sum of the lengths of `toSegments()`. -/
noncomputable def PolyLine.length (p : PolyLine ℝ) : ℝ :=
  (p.toSegments.map Segment.length).sum

/-- JS `Polygon.length()`: sum of the lengths of `Polygon.toSegments()`
(closing segment included). -/
noncomputable def Polygon.length (p : Polygon ℝ) : ℝ :=
  (p.toSegments.map Segment.length).sum

namespace Collision

/-- JS `Gmt.Collision.vertices(v1, v2)`: coordinate-wise equality. -/
def vertices (v1 v2 : Vertex ℝ) : Prop :=
  v1.x = v2.x ∧ v1.y = v2.y

/-- JS `Gmt.Collision.vertexVsCircle(v, c)`:
`Gmt.Distance.vertexVsCircle(v, c) < 0`. -/
def vertexVsCircle (v : Vertex ℝ) (c : Circle) : Prop :=
  Distance.vertexVsCircle v c < 0

/-- JS `Gmt.Collision.circles(c1, c2)`: `Gmt.Distance.circles(c1, c2) < 0`. -/
def circles (c1 c2 : Circle) : Prop :=
  Distance.circles c1 c2 < 0

end Collision

/-- Result record of JS `Gmt.Intersection.segments`.  The JS parallel
branch returns an object without `t`/`u` fields and with `vertex: null`;
the embedding uses `Option` (`none`) for those. -/
structure InterResult (α : Type) where
  parallel : Bool
  vertex : Option (Vertex α)
  intersect : Bool
  t : Option α
  u : Option α
  deriving DecidableEq

namespace Intersection

/-- Numerator of `t` in JS `Gmt.Intersection.segments`. -/
def tNom (s1 s2 : Segment ℚ) : ℚ :=
  (s1.start.x - s2.start.x) * (s2.start.y - s2.«end».y)
    - (s1.start.y - s2.start.y) * (s2.start.x - s2.«end».x)

/-- Numerator of `u` in JS `Gmt.Intersection.segments`. -/
def uNom (s1 s2 : Segment ℚ) : ℚ :=
  - ((s1.start.x - s1.«end».x) * (s1.start.y - s2.start.y)
    - (s1.start.y - s1.«end».y) * (s1.start.x - s2.start.x))

/-- Shared denominator `tDen` in JS `Gmt.Intersection.segments`. -/
def tDen (s1 s2 : Segment ℚ) : ℚ :=
  (s1.start.x - s1.«end».x) * (s2.start.y - s2.«end».y)
    - (s1.start.y - s1.«end».y) * (s2.start.x - s2.«end».x)

/-- The object returned by the JS parallel branch (`tDen == 0`). -/
def parallelResult : InterResult ℚ :=
  { parallel := true, vertex := none, intersect := false, t := none, u := none }

/-- JS `Gmt.Intersection.segments(s1, s2)`. -/
def segments (s1 s2 : Segment ℚ) : InterResult ℚ :=
  if tDen s1 s2 = 0 then
    parallelResult
  else
    let t := tNom s1 s2 / tDen s1 s2
    let u := uNom s1 s2 / tDen s1 s2
    { parallel := false,
      vertex := some ⟨s1.start.x + t * (s1.«end».x - s1.start.x),
                      s1.start.y + t * (s1.«end».y - s1.start.y)⟩,
      intersect := Gmt.between t 0 1 && Gmt.between u 0 1,
      t := some t,
      u := some u }

end Intersection

/-- Result record of JS `Gmt.cartesianToPolar`. -/
structure Polar where
  r : ℝ
  phi : ℝ

open Classical in
/-- JS `Gmt.cartesianToPolar(x, y)`: special-cases `x == 0` (picking
`PI/2` for `y > 0` and `PI/2 * 3` otherwise), else `atan(y/x)` with `PI`
added when `x < 0`. -/
noncomputable def cartesianToPolar (x y : ℝ) : Polar :=
  { r := Distance.plain 0 0 x y,
    phi :=
      if x = 0 then
        if y > 0 then PI / 2 else PI / 2 * 3
      else
        if x < 0 then Real.arctan (y / x) + PI else Real.arctan (y / x) }

/-!
## Helper lemmas
-/

/-- Unfolding lemma: the parallel branch of `Intersection.segments`. -/
theorem segments_of_den_eq (s1 s2 : Segment ℚ) (h : Intersection.tDen s1 s2 = 0) :
    Intersection.segments s1 s2 = Intersection.parallelResult := by
  simp [Intersection.segments, h]

/-- Unfolding lemma: the non-parallel branch of `Intersection.segments`. -/
theorem segments_of_den_ne (s1 s2 : Segment ℚ) (h : Intersection.tDen s1 s2 ≠ 0) :
    Intersection.segments s1 s2 =
      { parallel := false,
        vertex := some ⟨s1.start.x + Intersection.tNom s1 s2 / Intersection.tDen s1 s2
                          * (s1.«end».x - s1.start.x),
                        s1.start.y + Intersection.tNom s1 s2 / Intersection.tDen s1 s2
                          * (s1.«end».y - s1.start.y)⟩,
        intersect := between (Intersection.tNom s1 s2 / Intersection.tDen s1 s2) 0 1
          && between (Intersection.uNom s1 s2 / Intersection.tDen s1 s2) 0 1,
        t := some (Intersection.tNom s1 s2 / Intersection.tDen s1 s2),
        u := some (Intersection.uNom s1 s2 / Intersection.tDen s1 s2) } := by
  simp [Intersection.segments, h]

/-- Decoding lemma: `between` is the closed-interval membership test. -/
theorem between_eq_true (num mn mx : ℚ) :
    between num mn mx = true ↔ mn ≤ num ∧ num ≤ mx := by
  simp [between, ge_iff_le, and_comm]

/-- A `PolyLine` always decomposes into `len(vertices) - 1` segments. -/
theorem PolyLine.toSegments_length {α : Type} (p : PolyLine α) :
    p.toSegments.length = p.vertices.length - 1 := by
  simp only [PolyLine.toSegments, List.length_map, List.length_zip, List.length_tail]
  omega

/-- Square roots for the concrete square example. -/
theorem sqrt_four : Real.sqrt 4 = 2 := by
  rw [show (4 : ℝ) = 2 ^ 2 by norm_num, Real.sqrt_sq (by norm_num)]

/-!
## Claim theorems
-/

/-- Modelled from the spec's words (refinement comparison only): "the
determinant of the [two] direction vectors" of the two segments. -/
def directionDet (s1 s2 : Segment ℚ) : ℚ :=
  (s1.«end».x - s1.start.x) * (s2.«end».y - s2.start.y)
    - (s1.«end».y - s1.start.y) * (s2.«end».x - s2.start.x)

/-- C1: `Intersection.segments` computes the shared denominator as the
determinant of the two direction vectors; when it is zero it returns the
parallel result (`parallel = true`, vertex `none`, `intersect = false`,
no collinear-overlap check); otherwise it returns `t = tNom/den` and
`u = uNom/den`, always populates the vertex with
`s1.start + t * (s1.end - s1.start)` (even when `intersect` is false),
and sets `intersect = true` iff both `t` and `u` lie in `[0, 1]`. -/
theorem Intersection_segments_spec (s1 s2 : Segment ℚ) :
    Intersection.tDen s1 s2 = directionDet s1 s2 ∧
    (Intersection.tDen s1 s2 = 0 →
      Intersection.segments s1 s2 = Intersection.parallelResult) ∧
    (Intersection.tDen s1 s2 ≠ 0 →
      (Intersection.segments s1 s2).parallel = false ∧
      (Intersection.segments s1 s2).t
        = some (Intersection.tNom s1 s2 / Intersection.tDen s1 s2) ∧
      (Intersection.segments s1 s2).u
        = some (Intersection.uNom s1 s2 / Intersection.tDen s1 s2) ∧
      (Intersection.segments s1 s2).vertex
        = some ⟨s1.start.x + Intersection.tNom s1 s2 / Intersection.tDen s1 s2
                  * (s1.«end».x - s1.start.x),
                s1.start.y + Intersection.tNom s1 s2 / Intersection.tDen s1 s2
                  * (s1.«end».y - s1.start.y)⟩ ∧
      ((Intersection.segments s1 s2).intersect = true ↔
        (0 ≤ Intersection.tNom s1 s2 / Intersection.tDen s1 s2 ∧
         Intersection.tNom s1 s2 / Intersection.tDen s1 s2 ≤ 1 ∧
         0 ≤ Intersection.uNom s1 s2 / Intersection.tDen s1 s2 ∧
         Intersection.uNom s1 s2 / Intersection.tDen s1 s2 ≤ 1))) := by
  refine ⟨by unfold Intersection.tDen directionDet; ring,
    segments_of_den_eq s1 s2, fun h => ?_⟩
  rw [segments_of_den_ne s1 s2 h]
  refine ⟨rfl, rfl, rfl, rfl, ?_⟩
  simp only [Bool.and_eq_true, between_eq_true]
  tauto

/-- Witness for C1: the crossing pair `(0,0)-(2,2)` and `(0,2)-(2,0)` has
a nonzero denominator and gets its `t` populated; the collinear pair
`(0,0)-(1,0)` and `(0,0)-(2,0)` has denominator zero and gets the
parallel result. -/
theorem Intersection_segments_spec_witness :
    Intersection.tDen ⟨⟨0, 0⟩, ⟨2, 2⟩⟩ ⟨⟨0, 2⟩, ⟨2, 0⟩⟩ ≠ 0 ∧
    (Intersection.segments ⟨⟨0, 0⟩, ⟨2, 2⟩⟩ ⟨⟨0, 2⟩, ⟨2, 0⟩⟩).t
      = some (Intersection.tNom ⟨⟨0, 0⟩, ⟨2, 2⟩⟩ ⟨⟨0, 2⟩, ⟨2, 0⟩⟩
          / Intersection.tDen ⟨⟨0, 0⟩, ⟨2, 2⟩⟩ ⟨⟨0, 2⟩, ⟨2, 0⟩⟩) ∧
    Intersection.tDen ⟨⟨0, 0⟩, ⟨1, 0⟩⟩ ⟨⟨0, 0⟩, ⟨2, 0⟩⟩ = 0 ∧
    Intersection.segments ⟨⟨0, 0⟩, ⟨1, 0⟩⟩ ⟨⟨0, 0⟩, ⟨2, 0⟩⟩
      = Intersection.parallelResult := by
  have hne : Intersection.tDen (⟨⟨0, 0⟩, ⟨2, 2⟩⟩ : Segment ℚ) ⟨⟨0, 2⟩, ⟨2, 0⟩⟩ ≠ 0 := by
    norm_num [Intersection.tDen]
  have heq : Intersection.tDen (⟨⟨0, 0⟩, ⟨1, 0⟩⟩ : Segment ℚ) ⟨⟨0, 0⟩, ⟨2, 0⟩⟩ = 0 := by
    norm_num [Intersection.tDen]
  exact ⟨hne, ((Intersection_segments_spec _ _).2.2 hne).2.1, heq,
    (Intersection_segments_spec _ _).2.1 heq⟩

/-- Number of endpoint pairs (among the four start/end pairings) at which
two segments coincide. -/
def sharedEndpointCount (s1 s2 : Segment ℚ) : ℕ :=
  (if s1.start = s2.start then 1 else 0) + (if s1.start = s2.«end» then 1 else 0)
    + (if s1.«end» = s2.start then 1 else 0) + (if s1.«end» = s2.«end» then 1 else 0)

/-- C2 counterexample: the collinear segments `(0,0)-(1,0)` and
`(1,0)-(2,0)` share exactly one endpoint, yet the code takes the parallel
branch and reports `intersect = false` (with no `t`/`u` at all). -/
theorem shared_endpoint_counterexample :
    sharedEndpointCount ⟨⟨0, 0⟩, ⟨1, 0⟩⟩ ⟨⟨1, 0⟩, ⟨2, 0⟩⟩ = 1 ∧
    (Intersection.segments ⟨⟨0, 0⟩, ⟨1, 0⟩⟩ ⟨⟨1, 0⟩, ⟨2, 0⟩⟩).intersect = false := by
  constructor
  · norm_num [sharedEndpointCount, Vertex.mk.injEq]
  · rw [segments_of_den_eq _ _ (by norm_num [Intersection.tDen])]
    rfl

/-- C2 (amended): for segments with a nonzero denominator (non-parallel
lines) that share exactly one endpoint, the code reports
`intersect = true` with `t` and `u` each exactly 0 or 1. -/
theorem shared_endpoint_amended (s1 s2 : Segment ℚ)
    (hshare : sharedEndpointCount s1 s2 = 1)
    (hden : Intersection.tDen s1 s2 ≠ 0) :
    (Intersection.segments s1 s2).intersect = true ∧
    ((Intersection.segments s1 s2).t = some 0 ∨ (Intersection.segments s1 s2).t = some 1) ∧
    ((Intersection.segments s1 s2).u = some 0 ∨ (Intersection.segments s1 s2).u = some 1) := by
  have hcases : s1.start = s2.start ∨ s1.start = s2.«end»
      ∨ s1.«end» = s2.start ∨ s1.«end» = s2.«end» := by
    by_contra hc
    push_neg at hc
    simp [sharedEndpointCount, hc.1, hc.2.1, hc.2.2.1, hc.2.2.2] at hshare
  rw [segments_of_den_ne s1 s2 hden]
  rcases hcases with h | h | h | h
  · have hx : s1.start.x = s2.start.x := by rw [h]
    have hy : s1.start.y = s2.start.y := by rw [h]
    have ht : Intersection.tNom s1 s2 = 0 := by
      unfold Intersection.tNom; rw [hx, hy]; try ring
    have hu : Intersection.uNom s1 s2 = 0 := by
      unfold Intersection.uNom; rw [hx, hy]; try ring
    rw [ht, hu, zero_div]
    norm_num [between]
  · have hx : s1.start.x = s2.«end».x := by rw [h]
    have hy : s1.start.y = s2.«end».y := by rw [h]
    have ht : Intersection.tNom s1 s2 = 0 := by
      unfold Intersection.tNom; rw [hx, hy]; try ring
    have hu : Intersection.uNom s1 s2 = Intersection.tDen s1 s2 := by
      unfold Intersection.uNom Intersection.tDen; rw [hx, hy]; try ring
    rw [ht, hu, zero_div, div_self hden]
    norm_num [between]
  · have hx : s1.«end».x = s2.start.x := by rw [h]
    have hy : s1.«end».y = s2.start.y := by rw [h]
    have ht : Intersection.tNom s1 s2 = Intersection.tDen s1 s2 := by
      unfold Intersection.tNom Intersection.tDen; rw [← hx, ← hy]; try ring
    have hu : Intersection.uNom s1 s2 = 0 := by
      unfold Intersection.uNom; rw [← hx, ← hy]; try ring
    rw [ht, hu, zero_div, div_self hden]
    norm_num [between]
  · have hx : s1.«end».x = s2.«end».x := by rw [h]
    have hy : s1.«end».y = s2.«end».y := by rw [h]
    have ht : Intersection.tNom s1 s2 = Intersection.tDen s1 s2 := by
      unfold Intersection.tNom Intersection.tDen; rw [← hx, ← hy]; try ring
    have hu : Intersection.uNom s1 s2 = Intersection.tDen s1 s2 := by
      unfold Intersection.uNom Intersection.tDen; rw [← hx, ← hy]; try ring
    rw [ht, hu, div_self hden]
    norm_num [between]

/-- Witness for the amended C2: `(0,0)-(1,1)` and `(1,1)-(2,0)` share
exactly the endpoint `(1,1)`, are not parallel, and intersect. -/
theorem shared_endpoint_amended_witness :
    sharedEndpointCount ⟨⟨0, 0⟩, ⟨1, 1⟩⟩ ⟨⟨1, 1⟩, ⟨2, 0⟩⟩ = 1 ∧
    Intersection.tDen ⟨⟨0, 0⟩, ⟨1, 1⟩⟩ ⟨⟨1, 1⟩, ⟨2, 0⟩⟩ ≠ 0 ∧
    (Intersection.segments ⟨⟨0, 0⟩, ⟨1, 1⟩⟩ ⟨⟨1, 1⟩, ⟨2, 0⟩⟩).intersect = true := by
  have h1 : sharedEndpointCount ⟨⟨0, 0⟩, ⟨1, 1⟩⟩ ⟨⟨1, 1⟩, ⟨2, 0⟩⟩ = 1 := by
    norm_num [sharedEndpointCount, Vertex.mk.injEq]
  have h2 : Intersection.tDen (⟨⟨0, 0⟩, ⟨1, 1⟩⟩ : Segment ℚ) ⟨⟨1, 1⟩, ⟨2, 0⟩⟩ ≠ 0 := by
    norm_num [Intersection.tDen]
  exact ⟨h1, h2, (shared_endpoint_amended _ _ h1 h2).1⟩

/-- C3: on the unit circle the code's `getArea` evaluates to `π·π` (the
source multiplies `PI * PI * radius`), which differs from the
mathematically correct `π·r²` claimed by the spec; `getCircumference`
does return the claimed `2·π·r`. -/
theorem circle_area_formula_bug :
    Circle.getArea ⟨0, 0, 1⟩ = Real.pi * Real.pi ∧
    Circle.getArea ⟨0, 0, 1⟩ ≠ Real.pi * 1 ^ 2 ∧
    Circle.getCircumference ⟨0, 0, 1⟩ = 2 * Real.pi * 1 := by
  refine ⟨by simp [Circle.getArea, PI], fun h => ?_, by simp [Circle.getCircumference, PI]⟩
  simp only [Circle.getArea, PI] at h
  nlinarith [Real.pi_gt_three]

/-- The spec's example square, over `ℚ`: vertices `(0,0),(2,0),(2,2),(0,2)`. -/
def sqPolygonQ : Polygon ℚ :=
  ⟨⟨[⟨0, 0⟩, ⟨2, 0⟩, ⟨2, 2⟩, ⟨0, 2⟩]⟩⟩

/-- The spec's example square, over `ℝ`. -/
def sqPolygonR : Polygon ℝ :=
  ⟨⟨[⟨0, 0⟩, ⟨2, 0⟩, ⟨2, 2⟩, ⟨0, 2⟩]⟩⟩

/-- The spec's example open polyline, over `ℝ`. -/
def sqPolyLineR : PolyLine ℝ :=
  ⟨[⟨0, 0⟩, ⟨2, 0⟩, ⟨2, 2⟩, ⟨0, 2⟩]⟩

/-- C4 counterexample: the closing segment of the example square runs
from the FIRST vertex `(0,0)` to the LAST vertex `(0,2)` (the code pushes
`Segment(vs.x, vs.y, ve.x, ve.y)` with `vs = toVertices()[0]`), not from
`(0,2)` back to `(0,0)` as the claim states. -/
theorem polygon_closing_segment_counterexample :
    sqPolygonQ.toSegments
      = [⟨⟨0, 0⟩, ⟨2, 0⟩⟩, ⟨⟨2, 0⟩, ⟨2, 2⟩⟩, ⟨⟨2, 2⟩, ⟨0, 2⟩⟩, ⟨⟨0, 0⟩, ⟨0, 2⟩⟩] ∧
    (⟨⟨0, 0⟩, ⟨0, 2⟩⟩ : Segment ℚ) ≠ ⟨⟨0, 2⟩, ⟨0, 0⟩⟩ := by
  constructor
  · rfl
  · norm_num [Segment.mk.injEq, Vertex.mk.injEq]

/-- C4 (amended): for a polygon with at least one vertex, `toSegments`
yields the open-chain segments plus one closing segment joining the first
and last vertices — with start the FIRST vertex and end the LAST — for
`n` segments total, and `length` sums all of them including the closing
edge; the example square has 4 segments, closing segment `(0,0) → (0,2)`,
and length 8. -/
theorem polygon_toSegments_spec (p : Polygon ℝ) (h : p.toVertices ≠ []) :
    p.toSegments.length = p.toVertices.length ∧
    p.toSegments = p.body.toSegments ++ [⟨p.toVertices.headI, p.toVertices.getLastI⟩] ∧
    p.length = (p.toSegments.map Segment.length).sum ∧
    sqPolygonR.toSegments.length = 4 ∧
    sqPolygonR.toSegments
      = [⟨⟨0, 0⟩, ⟨2, 0⟩⟩, ⟨⟨2, 0⟩, ⟨2, 2⟩⟩, ⟨⟨2, 2⟩, ⟨0, 2⟩⟩, ⟨⟨0, 0⟩, ⟨0, 2⟩⟩] ∧
    sqPolygonR.length = 8 := by
  have hn : 1 ≤ p.toVertices.length := List.length_pos.mpr h
  refine ⟨?_, rfl, rfl, rfl, rfl, ?_⟩
  · have hb : p.body.toSegments.length = p.toVertices.length - 1 :=
      PolyLine.toSegments_length p.body
    simp only [Polygon.toSegments, List.length_append, hb, List.length_singleton]
    omega
  · show (sqPolygonR.toSegments.map Segment.length).sum = 8
    rw [show sqPolygonR.toSegments
        = [⟨⟨0, 0⟩, ⟨2, 0⟩⟩, ⟨⟨2, 0⟩, ⟨2, 2⟩⟩, ⟨⟨2, 2⟩, ⟨0, 2⟩⟩, ⟨⟨0, 0⟩, ⟨0, 2⟩⟩] from rfl]
    simp only [List.map_cons, List.map_nil, List.sum_cons, List.sum_nil,
      Segment.length, Distance.vertices, Distance.plain]
    norm_num
    rw [sqrt_four]
    norm_num

/-- Witness for C4: the example square is a polygon with a nonempty
vertex list, and its segment count equals its vertex count. -/
theorem polygon_toSegments_spec_witness :
    sqPolygonR.toVertices ≠ [] ∧
    sqPolygonR.toSegments.length = sqPolygonR.toVertices.length := by
  have h : sqPolygonR.toVertices ≠ [] := by
    simp [sqPolygonR, Polygon.toVertices, PolyLine.toVertices]
  exact ⟨h, (polygon_toSegments_spec sqPolygonR h).1⟩

/-- C5: a `PolyLine` decomposes into exactly `len(vertices) - 1` segments
(0 when there are fewer than 2 vertices), with no implicit closing edge,
and its `length` is the sum of those segment lengths; the example
4-vertex polyline has exactly 3 segments and length 6. -/
theorem polyline_toSegments_spec (p : PolyLine ℝ) :
    p.toSegments.length = p.vertices.length - 1 ∧
    p.length = (p.toSegments.map Segment.length).sum ∧
    sqPolyLineR.toSegments.length = 3 ∧
    sqPolyLineR.length = 6 := by
  refine ⟨PolyLine.toSegments_length p, rfl, rfl, ?_⟩
  show (sqPolyLineR.toSegments.map Segment.length).sum = 6
  rw [show sqPolyLineR.toSegments
      = [⟨⟨0, 0⟩, ⟨2, 0⟩⟩, ⟨⟨2, 0⟩, ⟨2, 2⟩⟩, ⟨⟨2, 2⟩, ⟨0, 2⟩⟩] from rfl]
  simp only [List.map_cons, List.map_nil, List.sum_cons, List.sum_nil,
    Segment.length, Distance.vertices, Distance.plain]
  norm_num
  rw [sqrt_four]
  norm_num

/-- C6: a zero-length segment forces the shared denominator to 0 in
either argument position, so `Intersection.segments` returns the defined
parallel result rather than failing (the function is total). -/
theorem zero_length_segment_parallel (s s2 : Segment ℚ) (h : s.start = s.«end») :
    Intersection.segments s s2 = Intersection.parallelResult ∧
    Intersection.segments s2 s = Intersection.parallelResult := by
  have hx : s.start.x = s.«end».x := by rw [h]
  have hy : s.start.y = s.«end».y := by rw [h]
  constructor
  · exact segments_of_den_eq _ _ (by unfold Intersection.tDen; rw [hx, hy]; try ring)
  · exact segments_of_den_eq _ _ (by unfold Intersection.tDen; rw [hx, hy]; try ring)

/-- Witness for C6: the degenerate segment `(1,2)-(1,2)` against
`(0,0)-(3,4)` yields the parallel result in both argument orders. -/
theorem zero_length_segment_parallel_witness :
    (⟨⟨1, 2⟩, ⟨1, 2⟩⟩ : Segment ℚ).start = (⟨⟨1, 2⟩, ⟨1, 2⟩⟩ : Segment ℚ).«end» ∧
    Intersection.segments ⟨⟨1, 2⟩, ⟨1, 2⟩⟩ ⟨⟨0, 0⟩, ⟨3, 4⟩⟩ = Intersection.parallelResult ∧
    Intersection.segments ⟨⟨0, 0⟩, ⟨3, 4⟩⟩ ⟨⟨1, 2⟩, ⟨1, 2⟩⟩ = Intersection.parallelResult := by
  have hz := zero_length_segment_parallel ⟨⟨1, 2⟩, ⟨1, 2⟩⟩ ⟨⟨0, 0⟩, ⟨3, 4⟩⟩ rfl
  exact ⟨rfl, hz.1, hz.2⟩

/-- C7: `Collision.vertexVsCircle` (point-in-circle) holds exactly when
the signed distance `Distance.vertexVsCircle` is strictly negative (a
point exactly on the boundary is not a collision), and the center of any
positive-radius circle always satisfies it. -/
theorem collision_point_in_circle_spec (v : Vertex ℝ) (c : Circle) :
    (Collision.vertexVsCircle v c ↔ Distance.vertexVsCircle v c < 0) ∧
    (0 < c.radius → Collision.vertexVsCircle c.getCenter c) := by
  refine ⟨Iff.rfl, fun hr => ?_⟩
  have hz : Distance.vertexVsCircle c.getCenter c = -c.radius := by
    simp [Distance.vertexVsCircle, Distance.plain, Circle.getCenter, sub_self]
  show Distance.vertexVsCircle c.getCenter c < 0
  rw [hz]
  linarith

/-- Witness for C7: the center of the unit circle at the origin is
strictly inside it. -/
theorem collision_point_in_circle_spec_witness :
    0 < (⟨0, 0, 1⟩ : Circle).radius ∧
    Collision.vertexVsCircle (Circle.getCenter ⟨0, 0, 1⟩) ⟨0, 0, 1⟩ :=
  ⟨one_pos, (collision_point_in_circle_spec ⟨3, 4⟩ ⟨0, 0, 1⟩).2 one_pos⟩

/-- C8: `Distance.plain` is symmetric in its two points and vanishes on a
repeated point, and `Distance.circles` is symmetric in its two circles. -/
theorem distance_symmetry_spec (x1 y1 x2 y2 : ℝ) (c1 c2 : Circle) :
    Distance.plain x1 y1 x2 y2 = Distance.plain x2 y2 x1 y1 ∧
    Distance.plain x1 y1 x1 y1 = 0 ∧
    Distance.circles c1 c2 = Distance.circles c2 c1 := by
  have hsymm : ∀ a b e f : ℝ, Distance.plain a b e f = Distance.plain e f a b := by
    intro a b e f
    unfold Distance.plain
    congr 1
    ring
  refine ⟨hsymm x1 y1 x2 y2, ?_, ?_⟩
  · simp [Distance.plain, sub_self]
  · unfold Distance.circles
    rw [hsymm]
    ring

/-- C9: `cartesianToPolar` special-cases `x == 0` (no division happens on
that branch), returning `phi = π/2` when `y > 0` and `phi = 3π/2`
otherwise — so `(0, 5) ↦ π/2`, `(0, -5) ↦ 3π/2`, and the tie-break maps
`(0, 0)` to `3π/2`. -/
theorem cartesian_to_polar_zero_x_spec (x y : ℝ) (hx : x = 0) :
    (cartesianToPolar x y).phi = if 0 < y then Real.pi / 2 else 3 * Real.pi / 2 := by
  subst hx
  unfold cartesianToPolar PI
  dsimp only
  rw [if_pos rfl]
  by_cases hy : 0 < y
  · rw [if_pos hy, if_pos hy]
  · rw [if_neg hy, if_neg hy]
    ring

/-- Witness for C9: `cartesianToPolar(0, 5)` has `phi = π/2`, and
`cartesianToPolar(0, -5)` and `cartesianToPolar(0, 0)` have `phi = 3π/2`. -/
theorem cartesian_to_polar_zero_x_spec_witness :
    (0 : ℝ) = 0 ∧
    (cartesianToPolar 0 5).phi = (if (0 : ℝ) < 5 then Real.pi / 2 else 3 * Real.pi / 2) ∧
    (cartesianToPolar 0 (-5)).phi
      = (if (0 : ℝ) < -5 then Real.pi / 2 else 3 * Real.pi / 2) ∧
    (cartesianToPolar 0 0).phi = (if (0 : ℝ) < 0 then Real.pi / 2 else 3 * Real.pi / 2) :=
  ⟨rfl, cartesian_to_polar_zero_x_spec 0 5 rfl, cartesian_to_polar_zero_x_spec 0 (-5) rfl,
    cartesian_to_polar_zero_x_spec 0 0 rfl⟩

/-- C10: the truthiness guard `if (x && y)` in the `PolyLine` and
`Polygon` constructors silently drops the initial vertex whenever either
coordinate equals 0, and keeps it when both are nonzero. -/
theorem constructor_truthiness_spec (x y : ℚ) :
    ((x = 0 ∨ y = 0) →
      (PolyLine.make x y).vertices = [] ∧ (Polygon.make x y).body.vertices = []) ∧
    (x ≠ 0 → y ≠ 0 →
      (PolyLine.make x y).vertices = [⟨x, y⟩]
        ∧ (Polygon.make x y).body.vertices = [⟨x, y⟩]) := by
  constructor
  · intro h
    have hno : ¬(x ≠ 0 ∧ y ≠ 0) := by tauto
    simp [PolyLine.make, Polygon.make, hno]
  · intro hx hy
    simp [PolyLine.make, Polygon.make, hx, hy]

/-- Witness for C10: `PolyLine(0, 5)` has an empty vertex list while
`PolyLine(3, 5)` keeps its single vertex. -/
theorem constructor_truthiness_spec_witness :
    ((0 : ℚ) = 0 ∨ (5 : ℚ) = 0) ∧ (PolyLine.make (0 : ℚ) 5).vertices = [] ∧
    ((3 : ℚ) ≠ 0 ∧ (5 : ℚ) ≠ 0) ∧ (PolyLine.make (3 : ℚ) 5).vertices = [⟨3, 5⟩] := by
  have h0 : (0 : ℚ) = 0 ∨ (5 : ℚ) = 0 := Or.inl rfl
  have h3 : (3 : ℚ) ≠ 0 := by norm_num
  have h5 : (5 : ℚ) ≠ 0 := by norm_num
  exact ⟨h0, ((constructor_truthiness_spec 0 5).1 h0).1, ⟨h3, h5⟩,
    ((constructor_truthiness_spec 3 5).2 h3 h5).1⟩

end Gmt

end GMT
